import Mathlib

/-!
Verification of the booking core of `src/api/index.py` (pharmacy-booking).

Shallow embedding conventions:
* An instant (a timezone-aware Python `datetime` in the single working zone
  America/Toronto) is a `Nat`: microseconds since an epoch placed at a Monday
  00:00 local time, so `weekday t = t / usPerDay % 7` matches Python's
  `datetime.weekday()` (Monday = 0).  All datetime arithmetic in the source
  (`timedelta` addition, `replace`, `max`, comparisons) is wall-clock-linear
  in that single zone, which this representation captures exactly.
* ISO-8601 strings that are only ever produced by `isoformat()` and consumed
  by `isoparse` are represented by the instants they denote; the rendering
  functions (`isoformat`, `strftime`, `speakable_range`, `fmt_local`) and the
  external services (Google Calendar free/busy, the fuzzy `dateutil` parser,
  the SHA-1 digest, calendar id generation, the clock) are oracle functions
  gathered in an `Env` record.
* A raised Python exception that escapes a function is `Except.error`;
  a normal return is `Except.ok`.
* The calendar's event list and the spreadsheet ledger's rows are the
  explicit mutable state (`PharmacyState`); each endpoint maps
  `Env → PharmacyState → request → PharmacyState × Except Err response`.
-/

namespace Pharmacy

/-- Microseconds per second (`datetime.microsecond` has range `[0, 10^6)`). -/
def usPerSec : Nat := 1000000

/-- Microseconds per minute. -/
def usPerMin : Nat := 60000000

/-- Microseconds per half hour (`timedelta(minutes=30)`). -/
def usPerHalfHour : Nat := 1800000000

/-- Microseconds per hour (`timedelta(hours=1)`). -/
def usPerHour : Nat := 3600000000

/-- Microseconds per day (`timedelta(days=1)`). -/
def usPerDay : Nat := 86400000000

/-- `dt.weekday()`: Monday = 0 … Sunday = 6 (epoch is a Monday 00:00). -/
def weekday (t : Nat) : Nat := t / usPerDay % 7

/-- `dt.hour`. -/
def hourOf (t : Nat) : Nat := t / usPerHour % 24

/-- `dt.minute`. -/
def minuteOf (t : Nat) : Nat := t / usPerMin % 60

/-- `dt.second`. -/
def secondOf (t : Nat) : Nat := t / usPerSec % 60

/-- `dt.microsecond`. -/
def microOf (t : Nat) : Nat := t % usPerSec

/-- `dt.replace(minute=0, second=0, microsecond=0)`: floor to the hour. -/
def hourFloor (t : Nat) : Nat := t - t % usPerHour

/-- `dt.replace(hour=0, minute=0, second=0, microsecond=0)`: floor to the day
(start of `dt`'s calendar day). -/
def dayFloor (t : Nat) : Nat := t - t % usPerDay

/-- `is_business_hours` (src/api/index.py lines 116-123): weekday must be
Mon..Fri, hour in `[9, 18)`, minute in `{0, 30}` (seconds/microseconds are
not inspected). -/
def is_business_hours (t : Nat) : Bool :=
  if weekday t ≥ 5 then false
  else if hourOf t < 9 ∨ hourOf t ≥ 18 then false
  else if minuteOf t ≠ 0 ∧ minuteOf t ≠ 30 then false
  else true

/-- `round_to_next_half_hour` (lines 149-160): if already on a 30-minute
boundary (minute in `{0,30}`, second = microsecond = 0) return the input;
otherwise minute < 15 snaps to `:00` of the same hour, minute < 45 snaps to
`:30`, and minute ≥ 45 snaps to `:00` of the next hour. -/
def round_to_next_half_hour (t : Nat) : Nat :=
  if (minuteOf t = 0 ∨ minuteOf t = 30) ∧ secondOf t = 0 ∧ microOf t = 0 then
    t
  else if minuteOf t < 15 then
    hourFloor t
  else if minuteOf t < 45 then
    hourFloor t + 30 * usPerMin
  else
    (t + usPerHour) - (t + usPerHour) % usPerHour

/-- Raised Python exception escaping a function (its message). -/
abbrev Err := String

deriving instance DecidableEq for Except

/-- A busy interval reported by the calendar's free/busy query (only its
presence in the list is ever inspected by the source). -/
structure BusyInterval where
  b_start : Nat
  b_end : Nat
deriving DecidableEq, Repr

/-- `Slot` pydantic model (lines 49-52).  The source stores `start`/`end` as
ISO strings; they are represented by the instants they denote (`end` is a
Lean keyword, hence `s_start`/`s_end`). -/
structure Slot where
  s_start : Nat
  s_end : Nat
  speakable : String
deriving DecidableEq, Repr

/-- A calendar event as stored by the Google Calendar collaborator:
`insert` bodies carry summary, description, start/end and the private
extended property `bookingRef` (lines 417-423); `id` is assigned by the
calendar on insert. -/
structure CalEvent where
  id : String
  summary : String
  description : String
  e_start : Nat
  e_end : Nat
  bookingRef : Option String
deriving DecidableEq, Repr

/-- The two external mutable stores: the calendar's event list and the
spreadsheet ledger's rows (a sheet row is a list of cell strings; rows may
be short, which the source guards with `len(row) > k` checks). -/
structure PharmacyState where
  events : List CalEvent
  ledger : List (List String)
deriving DecidableEq, Repr

/-- The external collaborators and ambient effects consulted by the core,
as oracle functions:
* `sha1hex`  — `hashlib.sha1(...).hexdigest()`;
* `isoFmt`   — `datetime.isoformat()` (rendering of an instant);
* `fmtLocal` — `fmt_local` (lines 162-165, sheet cell rendering);
* `nowStrUTC` — `datetime.utcnow().strftime(...)` for the ledger log column;
* `speak`    — `speakable_range` (lines 141-147, purely presentational);
* `fb`       — the calendar free/busy query (`.execute()` may raise);
* `updateEv` — the outcome of `events().update(eventId, body)` (may raise);
* `deleteEv` — the outcome of `events().delete(eventId)` (may raise);
* `now`      — `datetime.now(tz)` / `datetime.utcnow()` at request time;
* `parse`    — `dateutil.parser.parse(text, fuzzy=True)` followed by the
  localize/astimezone of line 334 (raises on unparseable text);
* `freshId`  — the calendar-assigned id of a newly inserted event. -/
structure Env where
  sha1hex : String → String
  isoFmt : Nat → String
  fmtLocal : Nat → String
  nowStrUTC : String
  speak : Nat → Nat → String
  fb : Nat → Nat → Except Err (List BusyInterval)
  updateEv : String → CalEvent → Except Err Unit
  deleteEv : String → Except Err Unit
  now : Nat
  parse : String → Except Err Nat
  freshId : List CalEvent → String

/-- `freebusy_range` (lines 125-132): builds the free/busy query body and
executes it; no exception handling, so a fetch error propagates. -/
def freebusy_range (env : Env) (start_dt end_dt : Nat) : Except Err (List BusyInterval) :=
  env.fb start_dt end_dt

/-- `is_slot_available` (lines 134-139): `false` outside business hours,
otherwise queries free/busy over `[start, start+30min)` and reports whether
the busy list is empty.  No `try/except`: a fetch error propagates. -/
def is_slot_available (env : Env) (start_dt : Nat) : Except Err Bool :=
  if ¬ is_business_hours start_dt then .ok false
  else
    match freebusy_range env start_dt (start_dt + 30 * usPerMin) with
    | .error e => .error e
    | .ok busy => .ok (busy.length == 0)

/-- `booking_ref_key` (lines 188-191): first six hex digits of the SHA-1 of
`"name|contact|start_iso|appt_type"`, uppercased, formatted `ABC-123`. -/
def booking_ref_key (env : Env) (name contact : String) (start_t : Nat) (appt_type : String) : String :=
  let h := ((env.sha1hex (name ++ "|" ++ contact ++ "|" ++ env.isoFmt start_t ++ "|" ++ appt_type)).take 6).toUpper
  h.take 3 ++ "-" ++ h.drop 3

/-- Python truthiness for `Optional[str]` fields: `None` and `""` are falsy. -/
def pystr (o : Option String) : String := o.getD ""

/-- `List Char` version of Python's `str.startswith` (helper for `in`). -/
def strStartsWith : List Char → List Char → Bool
  | _, [] => true
  | [], _ :: _ => false
  | c :: cs, d :: ds => c == d && strStartsWith cs ds

/-- `List Char` version of Python's substring test. -/
def strHasSub : List Char → List Char → Bool
  | [], needle => strStartsWith [] needle
  | c :: t, needle => strStartsWith (c :: t) needle || strHasSub t needle

/-- Python's `needle in hay` on strings. -/
def pyIn (needle hay : String) : Bool := strHasSub hay.toList needle.toList

/-- The row appended by `append_sheet_row` (lines 167-186), fixed column
order `loggedAtUTC, ref, "book", type, startLocal, endLocal, name, contact,
source, notes, status`. -/
def sheet_row (env : Env) (status appt_type : String) (start_t end_t : Nat)
    (name contact ref notes : String) : List String :=
  [env.nowStrUTC, ref, "book", appt_type, env.fmtLocal start_t, env.fmtLocal end_t,
   name, contact, "retell-chat", notes, status]

/-- `len(row) > 1 and row[1] == booking_ref` (lines 244, 282).  The cancel
path may pass `booking_ref=None` (patient-resolved booking without a ref
property); Python's `None == cell` is `False` for every string cell. -/
def rowMatchesRef (booking_ref : Option String) (row : List String) : Bool :=
  1 < row.length &&
    (match booking_ref with
     | some b => row.getD 1 "" == b
     | none => false)

/-- `len(row) > 10 and row[10] in ["confirmed", "rescheduled"]` (lines 246, 283). -/
def rowStatusUpdatable (row : List String) : Bool :=
  10 < row.length && (row.getD 10 "" == "confirmed" || row.getD 10 "" == "rescheduled")

/-- The row produced by `update_sheet_status`'s two cell writes (lines
247-265): status column K (index 10) gets `new_status`; if `notes` is
truthy, notes column J (index 9) gets the amended note built from the
original `row[9]`. -/
def statusUpdatedRow (row : List String) (new_status notes : String) : List String :=
  let row1 := row.set 10 new_status
  if notes ≠ "" then
    let existing_notes := row.getD 9 ""
    row1.set 9 (if existing_notes ≠ "" then existing_notes ++ ". Cancelled: " ++ notes
                else "Cancelled: " ++ notes)
  else row1

/-- `update_sheet_status` (lines 232-270): scan rows linearly; a row whose
reference matches is updated (and scanning stops, returning `True`) only if
its status is `confirmed` or `rescheduled`; otherwise, the scan continues.
Returns whether an update happened, plus the resulting rows. -/
def update_sheet_status (booking_ref : Option String) (new_status notes : String) :
    List (List String) → Bool × List (List String)
  | [] => (false, [])
  | row :: rest =>
    if rowMatchesRef booking_ref row then
      if rowStatusUpdatable row then
        (true, statusUpdatedRow row new_status notes :: rest)
      else
        let r := update_sheet_status booking_ref new_status notes rest
        (r.1, row :: r.2)
    else
      let r := update_sheet_status booking_ref new_status notes rest
      (r.1, row :: r.2)

/-- The row produced by `update_sheet_reschedule`'s `E{i}:K{i}` write (lines
284-295): columns E..K (indices 4..10) get `[start_local, end_local,
row[6], row[7], row[8], updated_notes, "rescheduled"]`. -/
def reschedUpdatedRow (env : Env) (row : List String) (new_start new_end : Nat)
    (notes : String) : List String :=
  let start_local := env.fmtLocal new_start
  let end_local := env.fmtLocal new_end
  let existing_notes := row.getD 9 ""
  let updated_notes :=
    if pyIn "Rescheduled" existing_notes then existing_notes ++ ". Rescheduled again: " ++ notes
    else "Rescheduled. " ++ notes
  ((((((row.set 4 start_local).set 5 end_local).set 6 (row.getD 6 "")).set 7
      (row.getD 7 "")).set 8 (row.getD 8 "")).set 9 updated_notes).set 10 "rescheduled"

/-- `update_sheet_reschedule` (lines 272-305): scan rows linearly; on the
first row whose reference matches, update it if its status is `confirmed`
or `rescheduled` (returning `True`), otherwise stop and return `False`
(unlike `update_sheet_status`, the scan does not continue past a matching
row with a non-updatable status). -/
def update_sheet_reschedule (env : Env) (booking_ref : Option String)
    (new_start new_end : Nat) (notes : String) :
    List (List String) → Bool × List (List String)
  | [] => (false, [])
  | row :: rest =>
    if rowMatchesRef booking_ref row then
      if rowStatusUpdatable row then
        (true, reschedUpdatedRow env row new_start new_end notes :: rest)
      else
        (false, row :: rest)
    else
      let r := update_sheet_reschedule env booking_ref new_start new_end notes rest
      (r.1, row :: r.2)

/-- `find_booking_by_ref` (lines 193-210): `events().list` filtered by the
private extended property `bookingRef=...` with `maxResults=1` — the first
event carrying the reference. -/
def find_booking_by_ref (st : PharmacyState) (booking_ref : String) : Option CalEvent :=
  st.events.find? (fun e => e.bookingRef == some booking_ref)

/-- `find_booking_by_patient` (lines 212-230): `events().list` with
`timeMin=utcnow` (Google: lower bound on the event's end time),
`maxResults=50`, `orderBy="startTime"`; then the first event whose
description contains the contact and whose summary contains the name,
case-insensitively.  The `q=name` free-text prefilter is subsumed by the
explicit summary check. -/
def find_booking_by_patient (env : Env) (st : PharmacyState) (name contact : String) :
    Option CalEvent :=
  let upcoming :=
    (((st.events.filter (fun e => env.now < e.e_end)).mergeSort
      (fun a b => a.e_start ≤ b.e_start)).take 50)
  upcoming.find? (fun e =>
    pyIn contact.toLower e.description.toLower && pyIn name.toLower e.summary.toLower)

/-- The booking-resolution step shared verbatim by the reschedule handler
(lines 446-455) and the cancel handler (lines 549-558): a truthy
`booking_ref` resolves by reference only; otherwise truthy `name` and
`contact` resolve by patient identity, taking the reference from the found
event's private properties. -/
def resolve_booking (env : Env) (st : PharmacyState)
    (booking_ref name contact : Option String) : Option (CalEvent × Option String) :=
  if pystr booking_ref ≠ "" then
    match find_booking_by_ref st (pystr booking_ref) with
    | some ev => some (ev, booking_ref)
    | none => none
  else if pystr name ≠ "" ∧ pystr contact ≠ "" then
    match find_booking_by_patient env st (pystr name) (pystr contact) with
    | some ev => some (ev, ev.bookingRef)
    | none => none
  else none

/-- The weekend-skipping loop of `top_slots` (lines 326-327):
`while probe.weekday() >= 5: probe += timedelta(days=1)`. -/
def skip_weekend (t : Nat) : Nat :=
  if weekday t ≥ 5 then skip_weekend (t + usPerDay) else t
termination_by (7 - weekday t) % 7
decreasing_by
  unfold weekday usPerDay at *
  omega

/-- The `Slot` value built at lines 317-323 and 338-344: a 30-minute window
from `p` with its spoken rendering. -/
def mkSlot (env : Env) (p : Nat) : Slot :=
  { s_start := p, s_end := p + usPerHalfHour, speakable := env.speak p (p + usPerHalfHour) }

/-- The inner loop of `top_slots` (lines 315-324): probe 30-minute steps
while `probe <= day_end` and fewer than `limit` slots are collected,
appending each available probe as a slot.  Returns the final probe and the
collected slots; an availability-check exception propagates. -/
def scan_day (env : Env) (limit day_end : Nat) (probe : Nat) (out : List Slot) :
    Except Err (Nat × List Slot) :=
  if h : probe ≤ day_end ∧ out.length < limit then
    match is_slot_available env probe with
    | .error e => .error e
    | .ok avail =>
      scan_day env limit day_end (probe + usPerHalfHour)
        (if avail then out ++ [mkSlot env probe] else out)
  else .ok (probe, out)
termination_by day_end + 1 - probe
decreasing_by
  have : 0 < usPerHalfHour := by unfold usPerHalfHour; omega
  omega

/-- The outer loop of `top_slots` (lines 313-328): for up to 8 candidate
days, scan the current day's window up to `day_end = 18:00` of the probe's
day, then jump to 9:00 of the next day and skip weekend days. -/
def top_slots_go (env : Env) (limit : Nat) (probe days_checked : Nat) (out : List Slot) :
    Except Err (List Slot) :=
  if h : out.length < limit ∧ days_checked < 8 then
    match scan_day env limit (dayFloor probe + 18 * usPerHour) probe out with
    | .error e => .error e
    | .ok (probe1, out1) =>
      top_slots_go env limit (skip_weekend (dayFloor (probe1 + usPerDay) + 9 * usPerHour))
        (days_checked + 1) out1
  else .ok out
termination_by 8 - days_checked

/-- `top_slots` (lines 307-329): clamp the anchor to at least `now + 60min`,
round to the half-hour grid, and run the day-by-day scan. -/
def top_slots (env : Env) (anchor : Nat) (limit : Nat) : Except Err (List Slot) :=
  let anchor1 := max anchor (env.now + 60 * usPerMin)
  let probe := round_to_next_half_hour anchor1
  top_slots_go env limit probe 0 []

/-- `FindSlotsRes` pydantic model (lines 59-61). -/
structure FindSlotsRes where
  slots : List Slot
  reason : Option String := none
deriving DecidableEq, Repr

/-- `find_available_slots` (lines 331-348): parse the preferred text (an
unparseable text raises, uncaught), round to the grid; if that exact slot
is available return it alone with `preferred_time_available`, otherwise
return the scanned alternatives with `preferred_time_busy`, or
`no_slots_available` when the scan found none. -/
def find_available_slots (env : Env) (preferred_datetime_text : String) (limit : Nat) :
    Except Err FindSlotsRes :=
  match env.parse preferred_datetime_text with
  | .error e => .error e
  | .ok anchor =>
    let rounded_anchor := round_to_next_half_hour anchor
    match is_slot_available env rounded_anchor with
    | .error e => .error e
    | .ok true => .ok { slots := [mkSlot env rounded_anchor], reason := some "preferred_time_available" }
    | .ok false =>
      match top_slots env anchor limit with
      | .error e => .error e
      | .ok slots =>
        .ok { slots := slots,
              reason := some (if slots.isEmpty then "no_slots_available" else "preferred_time_busy") }

/-- `FindSlotsReq` pydantic model (lines 54-57); `limit` defaults to 3. -/
structure FindSlotsReq where
  appointment_type : String
  preferred_datetime_text : String
  limit : Nat := 3
deriving DecidableEq, Repr

/-- The `/find-slots` handler (lines 356-372).  `payload` is the outcome of
validating the request body against `FindSlotsReq` (lines 361-363); on a
`ValidationError` (whose message this handler discards) the answer is a
sample slot two hours from now with reason `bad_payload`.  A valid request
is passed to `find_available_slots`, whose exceptions are not caught. -/
def find_slots_endpoint (env : Env) (payload : Except Err FindSlotsReq) : Except Err FindSlotsRes :=
  match payload with
  | .error _ =>
    let s := round_to_next_half_hour (env.now + 2 * usPerHour)
    .ok { slots := [mkSlot env s], reason := some "bad_payload" }
  | .ok req => find_available_slots env req.preferred_datetime_text req.limit

/-- `Patient` pydantic model (lines 63-66). -/
structure Patient where
  name : String
  contact : String
  email : Option String := none
deriving DecidableEq, Repr

/-- `CreateEventReq` pydantic model (lines 68-73). -/
structure CreateEventReq where
  appointment_type : String
  slot : Slot
  patient : Patient
  idempotency_key : Option String := none
  notes : Option String := none
deriving DecidableEq, Repr

/-- `CreateEventRes` pydantic model (lines 75-81). -/
structure CreateEventRes where
  success : Bool
  booking_ref : Option String := none
  event_id : Option String := none
  confirm_speakable : Option String := none
  error : Option String := none
  reason : Option String := none
deriving DecidableEq, Repr

/-- The `/create-event` handler (lines 374-434), after payload validation.
Lines 390-393 default `req.idempotency_key` to `booking_ref_key(...)`, but
the field is never read afterwards, so the dead store is dropped here.  The
reference is recomputed at line 396 from patient name, contact, slot start
and appointment type; an event already tagged with it short-circuits to a
success reply with that event's id (no insert, no ledger append).
Otherwise the slot is re-checked and, if still free, the event is inserted
(tagged with the reference) and a `confirmed` ledger row appended. -/
def create_event (env : Env) (st : PharmacyState) (req : CreateEventReq) :
    PharmacyState × Except Err CreateEventRes :=
  let ref := booking_ref_key env req.patient.name req.patient.contact
    req.slot.s_start req.appointment_type
  match st.events.find? (fun e => e.bookingRef == some ref) with
  | some ev =>
    (st, .ok { success := true, booking_ref := some ref, event_id := some ev.id,
               confirm_speakable := some (env.speak req.slot.s_start req.slot.s_end) })
  | none =>
    match is_slot_available env req.slot.s_start with
    | .error e => (st, .error e)
    | .ok avail =>
      if ¬ avail then
        (st, .ok { success := false, error := some "slot_taken",
                   reason := some "slot_no_longer_available" })
      else
        let newEv : CalEvent :=
          { id := env.freshId st.events,
            summary := req.appointment_type ++ " - " ++ req.patient.name,
            description := "Contact: " ++ req.patient.contact ++ "\nRef: " ++ ref,
            e_start := req.slot.s_start, e_end := req.slot.s_end,
            bookingRef := some ref }
        let st1 : PharmacyState :=
          { events := st.events ++ [newEv],
            ledger := st.ledger ++ [sheet_row env "confirmed" req.appointment_type
              req.slot.s_start req.slot.s_end req.patient.name req.patient.contact
              ref (pystr req.notes)] }
        (st1, .ok { success := true, booking_ref := some ref, event_id := some newEv.id,
                    confirm_speakable := some (env.speak req.slot.s_start req.slot.s_end) })

/-- The payload-validation step of `/create-event` (lines 374-388):
`payload` is the outcome of building a `CreateEventReq` from the request
body (string-slot preprocessing of lines 379-383 included); a
`ValidationError` is answered as a structured `validation_error` carrying
the error's message, before any external call; a valid request is handed
to `create_event`. -/
def create_event_endpoint (env : Env) (st : PharmacyState)
    (payload : Except Err CreateEventReq) : PharmacyState × Except Err CreateEventRes :=
  match payload with
  | .error e =>
    (st, .ok { success := false, error := some "validation_error", reason := some e })
  | .ok req => create_event env st req

/-- `RescheduleReq` pydantic model (lines 83-90). -/
structure RescheduleReq where
  booking_ref : Option String := none
  name : Option String := none
  contact : Option String := none
  new_preferred_datetime_text : String
  appointment_type : Option String := none
  confirm_reschedule : Bool := false
  notes : Option String := none
deriving DecidableEq, Repr

/-- `RescheduleRes` pydantic model (lines 92-100). -/
structure RescheduleRes where
  success : Bool
  booking_ref : Option String := none
  old_slot : Option String := none
  new_slot : Option Slot := none
  available_slots : Option (List Slot) := none
  confirm_speakable : Option String := none
  error : Option String := none
  reason : Option String := none
deriving DecidableEq, Repr

/-- The calendar event body written by the reschedule commit (lines
503-513): same summary and extended properties (so the same `bookingRef`
and, via `update(eventId=...)`, the same id), new start/end, and a
`Rescheduled:` line appended to the description when notes are given. -/
def reschedule_event_body (ev : CalEvent) (new_slot : Slot) (notes : Option String) : CalEvent :=
  { id := ev.id,
    summary := ev.summary,
    description := if pystr notes ≠ "" then ev.description ++ "\nRescheduled: " ++ pystr notes
                   else ev.description,
    e_start := new_slot.s_start, e_end := new_slot.s_end,
    bookingRef := ev.bookingRef }

/-- The commit block of the reschedule handler (lines 501-535): update the
calendar event in place, update the matching ledger row via
`update_sheet_reschedule`, and answer with the new slot. -/
def reschedule_commit (env : Env) (st : PharmacyState) (req : RescheduleReq)
    (ev : CalEvent) (booking_ref : Option String) (old_slot_speakable : String)
    (new_slot : Slot) : PharmacyState × Except Err RescheduleRes :=
  let updated := reschedule_event_body ev new_slot req.notes
  let events1 := st.events.map (fun e => if e.id == ev.id then updated else e)
  let note_arg := if pystr req.notes ≠ "" then pystr req.notes
                  else "Rescheduled from " ++ old_slot_speakable ++ " to " ++ new_slot.speakable
  let r := update_sheet_reschedule env booking_ref new_slot.s_start new_slot.s_end
    note_arg st.ledger
  ({ events := events1, ledger := r.2 },
   .ok { success := true, booking_ref := booking_ref, old_slot := some old_slot_speakable,
         new_slot := some new_slot, confirm_speakable := some new_slot.speakable,
         reason := some ("Updated successfully. Sheet update: " ++
           (if r.1 then "True" else "False")) })

/-- The commit block of lines 501-535 with the outcome of the calendar
`events().update` call (lines 516-520) made explicit via `Env.updateEv`:
the `except` of lines 534-535 catches a raised update and answers
`update_failed` with nothing written — the sheet update of line 523 is
only reached after the calendar update returns (`update_sheet_reschedule`
swallows its own exceptions and cannot raise).  When the update succeeds
the commit proceeds exactly as `reschedule_commit`, which models this
always-successful case and is what `reschedule_booking` below uses. -/
def reschedule_commit_attempt (env : Env) (st : PharmacyState) (req : RescheduleReq)
    (ev : CalEvent) (booking_ref : Option String) (old_slot_speakable : String)
    (new_slot : Slot) : PharmacyState × Except Err RescheduleRes :=
  match env.updateEv ev.id (reschedule_event_body ev new_slot req.notes) with
  | .error e =>
    (st, .ok { success := false, error := some "update_failed",
               reason := some ("Failed to update booking: " ++ e) })
  | .ok _ => reschedule_commit env st req ev booking_ref old_slot_speakable new_slot

/-- The `/reschedule-booking` handler (lines 436-537), after payload
validation.  Lines 460-462 compute an `appointment_type` that is never used
afterwards and are dropped.  Two-phase protocol: without the confirm flag
the handler only proposes (`preferred_time_available` with the exact slot,
or `preferred_time_busy` with alternatives); with it, the first slot of the
finder's answer is committed.  The final `unexpected_error` return of line
537 is unreachable (every reason branch returns first). -/
def reschedule_booking (env : Env) (st : PharmacyState) (req : RescheduleReq) :
    PharmacyState × Except Err RescheduleRes :=
  match resolve_booking env st req.booking_ref req.name req.contact with
  | none => (st, .ok { success := false, error := some "booking_not_found",
                       reason := some "No booking found with provided details" })
  | some (ev, booking_ref) =>
    let old_slot_speakable := env.speak ev.e_start ev.e_end
    match env.parse req.new_preferred_datetime_text with
    | .error _ => (st, .ok { success := false, error := some "invalid_datetime",
                             reason := some "Could not parse new preferred datetime" })
    | .ok _ =>
      match find_available_slots env req.new_preferred_datetime_text 3 with
      | .error e => (st, .error e)
      | .ok slot_result =>
        if slot_result.reason == some "preferred_time_available" then
          match slot_result.slots.head? with
          | none => (st, .error "IndexError")
          | some new_slot =>
            if ¬ req.confirm_reschedule then
              (st, .ok { success := true, booking_ref := booking_ref,
                         old_slot := some old_slot_speakable, new_slot := some new_slot,
                         reason := some "preferred_time_available" })
            else
              reschedule_commit env st req ev booking_ref old_slot_speakable new_slot
        else if slot_result.reason == some "preferred_time_busy" then
          if ¬ req.confirm_reschedule then
            (st, .ok { success := false, booking_ref := booking_ref,
                       old_slot := some old_slot_speakable,
                       available_slots := some slot_result.slots,
                       reason := some "preferred_time_busy" })
          else
            match slot_result.slots.head? with
            | none => (st, .error "IndexError")
            | some new_slot =>
              reschedule_commit env st req ev booking_ref old_slot_speakable new_slot
        else
          (st, .ok { success := false, error := some "no_slots_available",
                     reason := some "No available slots found for the requested time period" })

/-- The payload-validation step of `/reschedule-booking` (lines 436-444):
a `ValidationError` is answered as a structured `validation_error`
carrying the error's message, before any external call; a valid request is
handed to `reschedule_booking`. -/
def reschedule_booking_endpoint (env : Env) (st : PharmacyState)
    (payload : Except Err RescheduleReq) : PharmacyState × Except Err RescheduleRes :=
  match payload with
  | .error e =>
    (st, .ok { success := false, error := some "validation_error", reason := some e })
  | .ok req => reschedule_booking env st req

/-- `CancelReq` pydantic model (lines 102-106). -/
structure CancelReq where
  booking_ref : Option String := none
  name : Option String := none
  contact : Option String := none
  reason : Option String := none
deriving DecidableEq, Repr

/-- `CancelRes` pydantic model (lines 108-113). -/
structure CancelRes where
  success : Bool
  booking_ref : Option String := none
  cancelled_slot : Option String := none
  error : Option String := none
  reason : Option String := none
deriving DecidableEq, Repr

/-- The `/cancel-booking` handler (lines 539-583), after payload
validation: resolve the booking, hard-delete the calendar event by id
(`Env.deleteEv` is the outcome of the `events().delete` call of lines
568-571; the `except` of lines 582-583 catches a raised delete and answers
`cancellation_failed` with nothing written, since `update_sheet_status`
at line 574 swallows its own exceptions and cannot raise), and set the
matching ledger row's status to `cancelled` with the reason appended to
its notes. -/
def cancel_booking (env : Env) (st : PharmacyState) (req : CancelReq) :
    PharmacyState × Except Err CancelRes :=
  match resolve_booking env st req.booking_ref req.name req.contact with
  | none => (st, .ok { success := false, error := some "booking_not_found",
                       reason := some "No booking found with provided details" })
  | some (ev, booking_ref) =>
    let cancelled_slot_speakable := env.speak ev.e_start ev.e_end
    match env.deleteEv ev.id with
    | .error e =>
      (st, .ok { success := false, error := some "cancellation_failed",
                 reason := some ("Failed to cancel booking: " ++ e) })
    | .ok _ =>
      let events1 := st.events.filter (fun e => !(e.id == ev.id))
      let cancellation_reason := if pystr req.reason ≠ "" then pystr req.reason
                                 else "No reason provided"
      let r := update_sheet_status booking_ref "cancelled" cancellation_reason st.ledger
      ({ events := events1, ledger := r.2 },
       .ok { success := true, booking_ref := booking_ref,
             cancelled_slot := some cancelled_slot_speakable })

/-- The payload-validation step of `/cancel-booking` (lines 539-547): a
`ValidationError` is answered as a structured `validation_error` carrying
the error's message, before any external call; a valid request is handed
to `cancel_booking`. -/
def cancel_booking_endpoint (env : Env) (st : PharmacyState)
    (payload : Except Err CancelReq) : PharmacyState × Except Err CancelRes :=
  match payload with
  | .error e =>
    (st, .ok { success := false, error := some "validation_error", reason := some e })
  | .ok req => cancel_booking env st req

/-! Statement helpers (used only to phrase properties about the scan). -/

/-- The calendar day following day-start `d`, skipping Saturday/Sunday —
the day targeted by the outer-loop jump of `top_slots`. -/
def next_business_day (d : Nat) : Nat := skip_weekend (d + usPerDay)

/-- The day-starts of the first `k` candidate days the scan visits when its
first probe lies in the day starting at `d`. -/
def candidate_days : Nat → Nat → List Nat
  | _, 0 => []
  | d, k + 1 => d :: candidate_days (next_business_day d) k

/-! Concrete scenario data for witnesses and counterexamples. -/

/-- Day-start of the epoch week's Wednesday. -/
def d2 : Nat := 2 * usPerDay

/-- Wednesday 10:00 — a valid business slot. -/
def w10 : Nat := d2 + 10 * usPerHour

/-- Wednesday 10:05 — an unrounded preferred instant. -/
def w1005 : Nat := w10 + 5 * usPerMin

/-- A concrete environment: calendar all free, parser fixed at Wednesday
10:05, constant digest, clock at the epoch Monday 00:00. -/
def envFree : Env :=
  { sha1hex := fun _ => "abcdef0123456789"
    isoFmt := fun t => toString t
    fmtLocal := fun t => "L" ++ toString t
    nowStrUTC := "logged-utc"
    speak := fun a b => toString a ++ "~" ++ toString b
    fb := fun _ _ => .ok []
    updateEv := fun _ _ => .ok ()
    deleteEv := fun _ => .ok ()
    now := 0
    parse := fun _ => .ok w1005
    freshId := fun evs => "ev" ++ toString evs.length }

/-- Like `envFree`, but the Wednesday 10:00 half hour is busy. -/
def envBusy10 : Env :=
  { envFree with fb := fun s _ =>
      if s == w10 then .ok [{ b_start := w10, b_end := w10 + usPerHalfHour }] else .ok [] }

/-- Like `envFree`, but every free/busy query raises. -/
def envFetchErr : Env :=
  { envFree with fb := fun _ _ => .error "fetch_failed" }

/-- Like `envFree`, but the free-text parser raises. -/
def envNoParse : Env :=
  { envFree with parse := fun _ => .error "ParserError" }

/-- Like `envFree`, but every calendar write raises. -/
def envWriteErr : Env :=
  { envFree with updateEv := fun _ _ => .error "calendar_write_failed",
                 deleteEv := fun _ => .error "calendar_write_failed" }

/-- An existing booking event for Wednesday 10:00 tagged `ABC-123`. -/
def evA : CalEvent :=
  { id := "ev-a", summary := "flu_shot - Ann Smith",
    description := "contact: 555-0101\nref: abc-123",
    e_start := w10, e_end := w10 + usPerHalfHour, bookingRef := some "ABC-123" }

/-- The `confirmed` ledger row of `evA`. -/
def rowA : List String :=
  ["logged-utc", "ABC-123", "book", "flu_shot", "sL", "eL", "Ann Smith", "555-0101",
   "retell-chat", "", "confirmed"]

/-- A `cancelled` ledger row carrying reference `OLD-999`. -/
def rowCancelled : List String :=
  ["logged-utc", "OLD-999", "book", "flu_shot", "sL", "eL", "Bea Jones", "555-0202",
   "retell-chat", "notes", "cancelled"]

/-- State holding `evA` and its ledger row, plus a cancelled history row. -/
def stA : PharmacyState := { events := [evA], ledger := [rowCancelled, rowA] }

/-- A create request for Wednesday 10:00. -/
def creq : CreateEventReq :=
  { appointment_type := "flu_shot",
    slot := { s_start := w10, s_end := w10 + usPerHalfHour, speakable := "spk" },
    patient := { name := "Ann Smith", contact := "555-0101" } }

/-- A reschedule request for `ABC-123` without the confirm flag. -/
def rreqNoConfirm : RescheduleReq :=
  { booking_ref := some "ABC-123", new_preferred_datetime_text := "wednesday 10:05" }

/-- The same reschedule request with the confirm flag set. -/
def rreqConfirm : RescheduleReq :=
  { rreqNoConfirm with confirm_reschedule := true }

/-- A find-slots request whose preferred text the parser rejects. -/
def fsreq : FindSlotsReq :=
  { appointment_type := "flu_shot", preferred_datetime_text := "gibberish", limit := 3 }

/-- A reschedule request for a reference no calendar event carries. -/
def rreqMissing : RescheduleReq :=
  { booking_ref := some "ZZZ-999", new_preferred_datetime_text := "wednesday 10:05" }

/-- A cancel request for `ABC-123`. -/
def cancreq : CancelReq := { booking_ref := some "ABC-123" }

/-- The finder's answer under `envBusy10` for Wednesday 10:05, limit 3. -/
def resBusyW : FindSlotsRes :=
  { slots := [mkSlot envBusy10 (w10 + usPerHalfHour), mkSlot envBusy10 (w10 + 2 * usPerHalfHour),
              mkSlot envBusy10 (w10 + 3 * usPerHalfHour)],
    reason := some "preferred_time_busy" }

/-- Statement helper for C8: relates a ledger row to its counterpart after
one of the sheet-updating operations — the row is untouched unless its
status was `confirmed`/`rescheduled`, and a `cancelled` row is always
untouched. -/
def rowFrameOk (row row' : List String) : Prop :=
  (row' = row ∨ rowStatusUpdatable row = true) ∧
  (row.getD 10 "" = "cancelled" → row' = row)

/-- The booking reference `create_event` derives at line 396 from the four
request fields (statement helper). -/
def create_ref (env : Env) (req : CreateEventReq) : String :=
  booking_ref_key env req.patient.name req.patient.contact
    req.slot.s_start req.appointment_type

/-- The state after a first successful create of `creq` on an empty
calendar and ledger under `envFree`. -/
def st1w : PharmacyState := (create_event envFree { events := [], ledger := [] } creq).1

/-- The response of that first create. -/
def r1w : CreateEventRes :=
  { success := true, booking_ref := some (create_ref envFree creq),
    event_id := some (envFree.freshId []),
    confirm_speakable := some (envFree.speak creq.slot.s_start creq.slot.s_end) }

/-! ### Arithmetic facts about the time utilities -/

theorem round_minute_lt_15 (t : Nat) (h : minuteOf t < 15) :
    round_to_next_half_hour t = hourFloor t := by
  unfold round_to_next_half_hour minuteOf secondOf microOf hourFloor
    usPerMin usPerSec usPerHour at *
  split_ifs <;> omega

theorem round_minute_mid (t : Nat) (h1 : 15 ≤ minuteOf t) (h2 : minuteOf t < 45) :
    round_to_next_half_hour t = hourFloor t + 30 * usPerMin := by
  unfold round_to_next_half_hour minuteOf secondOf microOf hourFloor
    usPerMin usPerSec usPerHour at *
  split_ifs <;> omega

theorem round_minute_ge_45 (t : Nat) (h : 45 ≤ minuteOf t) :
    round_to_next_half_hour t = hourFloor t + usPerHour := by
  unfold round_to_next_half_hour minuteOf secondOf microOf hourFloor
    usPerMin usPerSec usPerHour at *
  split_ifs <;> omega

theorem round_sub_minute (t : Nat) :
    secondOf (round_to_next_half_hour t) = 0 ∧ microOf (round_to_next_half_hour t) = 0 := by
  unfold round_to_next_half_hour minuteOf secondOf microOf hourFloor
    usPerMin usPerSec usPerHour at *
  split_ifs <;> constructor <;> omega

theorem round_idempotent (t : Nat) :
    round_to_next_half_hour (round_to_next_half_hour t) = round_to_next_half_hour t := by
  unfold round_to_next_half_hour minuteOf secondOf microOf hourFloor
    usPerMin usPerSec usPerHour
  split_ifs <;> omega

theorem round_mod_half (t : Nat) :
    round_to_next_half_hour t % usPerHalfHour = 0 := by
  unfold round_to_next_half_hour minuteOf secondOf microOf hourFloor
    usPerMin usPerSec usPerHour usPerHalfHour
  split_ifs <;> omega

/-- C6: for every instant `t`, `round_to_next_half_hour` sends minute < 15
to `:00` of the same hour, 15 ≤ minute < 45 to `:30` of the same hour, and
minute ≥ 45 to `:00` of the next hour, zeroing seconds and microseconds;
and it is idempotent. -/
theorem round_to_next_half_hour_spec (t : Nat) :
    (minuteOf t < 15 → round_to_next_half_hour t = hourFloor t) ∧
    (15 ≤ minuteOf t → minuteOf t < 45 →
      round_to_next_half_hour t = hourFloor t + 30 * usPerMin) ∧
    (45 ≤ minuteOf t → round_to_next_half_hour t = hourFloor t + usPerHour) ∧
    secondOf (round_to_next_half_hour t) = 0 ∧
    microOf (round_to_next_half_hour t) = 0 ∧
    round_to_next_half_hour (round_to_next_half_hour t) = round_to_next_half_hour t :=
  ⟨round_minute_lt_15 t, round_minute_mid t, round_minute_ge_45 t,
   (round_sub_minute t).1, (round_sub_minute t).2, round_idempotent t⟩

/-- Witness for C6 at Wednesday 10:10:00.000007, 10:20 and 10:50. -/
theorem round_to_next_half_hour_spec_witness :
    (minuteOf (w10 + 10 * usPerMin + 7) < 15 ∧
      round_to_next_half_hour (w10 + 10 * usPerMin + 7) = hourFloor (w10 + 10 * usPerMin + 7)) ∧
    (round_to_next_half_hour (w10 + 20 * usPerMin) = hourFloor (w10 + 20 * usPerMin) + 30 * usPerMin) ∧
    (round_to_next_half_hour (w10 + 50 * usPerMin) = hourFloor (w10 + 50 * usPerMin) + usPerHour) ∧
    round_to_next_half_hour (round_to_next_half_hour (w10 + 10 * usPerMin + 7)) =
      round_to_next_half_hour (w10 + 10 * usPerMin + 7) :=
  ⟨⟨by decide, (round_to_next_half_hour_spec (w10 + 10 * usPerMin + 7)).1 (by decide)⟩,
   (round_to_next_half_hour_spec (w10 + 20 * usPerMin)).2.1 (by decide) (by decide),
   (round_to_next_half_hour_spec (w10 + 50 * usPerMin)).2.2.1 (by decide),
   (round_to_next_half_hour_spec (w10 + 10 * usPerMin + 7)).2.2.2.2.2⟩

/-! ### C2: `is_slot_available` -/

/-- Counterexample to C2 as stated: at the valid business slot Wednesday
10:00, with a free/busy fetch that raises, `is_slot_available` propagates
the error instead of returning `false`. -/
theorem is_slot_available_fetch_error_cx :
    is_business_hours w10 = true ∧
    is_slot_available envFetchErr w10 = .error "fetch_failed" ∧
    is_slot_available envFetchErr w10 ≠ .ok false :=
  ⟨by decide, by decide, by decide⟩

/-- C2 (amended): `is_slot_available` returns `false` whenever `start` is
not a valid business slot; otherwise it reports whether the free/busy
query over `[start, start+30min)` came back empty; and a fetch error
propagates to the caller (it is not converted to `false`). -/
theorem is_slot_available_spec (env : Env) (t : Nat) :
    (is_business_hours t = false → is_slot_available env t = .ok false) ∧
    (∀ busy, is_business_hours t = true → env.fb t (t + 30 * usPerMin) = .ok busy →
      is_slot_available env t = .ok (busy.length == 0)) ∧
    (∀ e, is_business_hours t = true → env.fb t (t + 30 * usPerMin) = .error e →
      is_slot_available env t = .error e) := by
  refine ⟨fun hb => ?_, fun busy hb hfb => ?_, fun e hb hfb => ?_⟩
  · simp [is_slot_available, freebusy_range, hb]
  · simp [is_slot_available, freebusy_range, hb, hfb]
  · simp [is_slot_available, freebusy_range, hb, hfb]

/-- Witness for C2's amended theorem: Wednesday 10:01 is not a business
slot; Wednesday 10:00 is, and an empty busy list yields `true` while a
fetch error propagates. -/
theorem is_slot_available_spec_witness :
    is_slot_available envFree (w10 + usPerMin) = .ok false ∧
    is_slot_available envFree w10 = .ok (([] : List BusyInterval).length == 0) ∧
    is_slot_available envFetchErr w10 = .error "fetch_failed" :=
  ⟨(is_slot_available_spec envFree (w10 + usPerMin)).1 (by decide),
   (is_slot_available_spec envFree w10).2.1 [] (by decide) rfl,
   (is_slot_available_spec envFetchErr w10).2.2 "fetch_failed" (by decide) rfl⟩

/-! ### C9: the caller-supplied idempotency key is inert -/

/-- C9: two create requests that differ only in `idempotency_key` produce
the same booking reference, the same calendar/ledger effects and the same
response — the field is defaulted at lines 390-393 and never read. -/
theorem create_event_ignores_idempotency_key (env : Env) (st : PharmacyState)
    (req : CreateEventReq) (k k' : Option String) :
    booking_ref_key env { req with idempotency_key := k }.patient.name
        { req with idempotency_key := k }.patient.contact
        { req with idempotency_key := k }.slot.s_start
        { req with idempotency_key := k }.appointment_type =
      booking_ref_key env req.patient.name req.patient.contact
        req.slot.s_start req.appointment_type ∧
    create_event env st { req with idempotency_key := k } =
      create_event env st { req with idempotency_key := k' } :=
  ⟨rfl, rfl⟩

/-! ### C3: `slot_taken` leaves the state unchanged -/

/-- C3: when no calendar event carries the request's reference and the
write-time re-check finds the slot unavailable, `create_event` answers
`slot_taken` and performs no calendar insert and no ledger append. -/
theorem create_event_slot_taken_frame (env : Env) (st : PharmacyState)
    (req : CreateEventReq)
    (hnoref : st.events.find? (fun e => e.bookingRef ==
      some (booking_ref_key env req.patient.name req.patient.contact
        req.slot.s_start req.appointment_type)) = none)
    (hbusy : is_slot_available env req.slot.s_start = .ok false) :
    create_event env st req =
      (st, .ok { success := false, error := some "slot_taken",
                 reason := some "slot_no_longer_available" }) := by
  simp [create_event, hnoref, hbusy]

/-- Witness for C3: creating Wednesday 10:00 on a calendar whose free/busy
reports that half hour busy. -/
theorem create_event_slot_taken_frame_witness :
    create_event envBusy10 { events := [], ledger := [] } creq =
      ({ events := [], ledger := [] },
       .ok { success := false, error := some "slot_taken",
             reason := some "slot_no_longer_available" }) :=
  create_event_slot_taken_frame envBusy10 { events := [], ledger := [] } creq rfl (by decide)

/-! ### C1: idempotent create -/

theorem find_append_of_none {α : Type} (p : α → Bool) (l1 l2 : List α)
    (h : l1.find? p = none) : (l1 ++ l2).find? p = l2.find? p := by
  induction l1 with
  | nil => rfl
  | cons a t ih =>
    rw [List.find?_cons] at h
    cases hp : p a with
    | true => rw [hp] at h; exact absurd h (by simp)
    | false =>
      rw [hp] at h
      simpa [List.find?_cons, hp] using ih h

theorem filter_nil_of_none {α : Type} (p : α → Bool) (l : List α)
    (h : ∀ x ∈ l, ¬ p x = true) : l.filter p = [] := by
  induction l with
  | nil => rfl
  | cons a t ih =>
    have ha : p a = false := by
      have := h a (by simp)
      revert this
      cases p a <;> simp
    rw [List.filter_cons, if_neg (by simp [ha])]
    exact ih (fun x hx => h x (by simp [hx]))

/-- The replay short-circuit of `create_event` (lines 398-411): an event
already tagged with the request's reference is answered as a success with
the existing event's id, and nothing is written. -/
theorem create_event_replay (env : Env) (st : PharmacyState) (req : CreateEventReq)
    (ev : CalEvent)
    (h : st.events.find? (fun e => e.bookingRef == some (create_ref env req)) = some ev) :
    create_event env st req =
      (st, .ok { success := true, booking_ref := some (create_ref env req),
                 event_id := some ev.id,
                 confirm_speakable := some (env.speak req.slot.s_start req.slot.s_end) }) := by
  unfold create_ref at h ⊢
  simp [create_event, h]

/-- C1: the booking reference is a pure function of (patient name, contact,
slot start, appointment type); a create whose reference is already on the
calendar replays that event's identity without writing; hence a repeated
create of a fresh, successful request leaves exactly one event carrying
the reference, and the second call returns the first call's identity with
the state unchanged. -/
theorem create_event_idempotent :
    (∀ (env : Env) (st : PharmacyState) (req : CreateEventReq) (ev : CalEvent),
      st.events.find? (fun e => e.bookingRef == some (create_ref env req)) = some ev →
      create_event env st req =
        (st, .ok { success := true, booking_ref := some (create_ref env req),
                   event_id := some ev.id,
                   confirm_speakable := some (env.speak req.slot.s_start req.slot.s_end) })) ∧
    (∀ (env : Env) (st : PharmacyState) (req : CreateEventReq)
       (st1 : PharmacyState) (r1 : CreateEventRes),
      (∀ e ∈ st.events, ¬ e.bookingRef = some (create_ref env req)) →
      create_event env st req = (st1, .ok r1) →
      r1.success = true →
      (st1.events.filter (fun e => e.bookingRef == some (create_ref env req))).length = 1 ∧
      r1.booking_ref = some (create_ref env req) ∧
      create_event env st1 req =
        (st1, .ok { success := true, booking_ref := some (create_ref env req),
                    event_id := r1.event_id,
                    confirm_speakable := some (env.speak req.slot.s_start req.slot.s_end) })) := by
  constructor
  · exact create_event_replay
  · intro env st req st1 r1 h0 hrun hs
    have hkey : booking_ref_key env req.patient.name req.patient.contact
        req.slot.s_start req.appointment_type = create_ref env req := rfl
    have hpred : ∀ e ∈ st.events, ¬ (e.bookingRef == some (create_ref env req)) = true := by
      intro e he
      simpa using h0 e he
    have hnone : st.events.find? (fun e => e.bookingRef == some (create_ref env req)) = none := by
      rw [List.find?_eq_none]
      exact hpred
    rw [create_event, hkey] at hrun
    rw [hnone] at hrun
    cases hav : is_slot_available env req.slot.s_start with
    | error e =>
      rw [hav] at hrun
      simp at hrun
    | ok avail =>
      rw [hav] at hrun
      cases avail with
      | false =>
        simp at hrun
        rw [← hrun.2] at hs
        simp at hs
      | true =>
        simp at hrun
        obtain ⟨hst1, hr1⟩ := hrun
        subst hst1
        subst hr1
        refine ⟨?_, rfl, ?_⟩
        · simp only [List.filter_append]
          rw [filter_nil_of_none _ _ hpred]
          simp
        · exact create_event_replay env _ req
            ⟨env.freshId st.events, req.appointment_type ++ " - " ++ req.patient.name,
             "Contact: " ++ req.patient.contact ++ "\nRef: " ++ create_ref env req,
             req.slot.s_start, req.slot.s_end, some (create_ref env req)⟩
            (by rw [find_append_of_none _ _ _ hnone]; simp [List.find?_cons])

/-- Witness for C1: a fresh create of `creq` under `envFree` succeeds, and
replaying it returns the same event id on an unchanged state. -/
theorem create_event_idempotent_witness :
    (st1w.events.filter (fun e => e.bookingRef == some (create_ref envFree creq))).length = 1 ∧
    r1w.booking_ref = some (create_ref envFree creq) ∧
    create_event envFree st1w creq =
      (st1w, .ok { success := true, booking_ref := some (create_ref envFree creq),
                   event_id := r1w.event_id,
                   confirm_speakable := some (envFree.speak creq.slot.s_start creq.slot.s_end) }) :=
  create_event_idempotent.2 envFree { events := [], ledger := [] } creq st1w r1w
    (by simp) rfl rfl

/-! ### C8: cancelled ledger rows are immutable history -/

theorem forall2_of_refl {α : Type} (R : α → α → Prop) (h : ∀ x, R x x) (l : List α) :
    List.Forall₂ R l l := by
  induction l with
  | nil => exact List.Forall₂.nil
  | cons a t ih => exact List.Forall₂.cons (h a) ih

theorem update_sheet_status_frame (bref : Option String) (new_status notes : String)
    (rows : List (List String)) :
    List.Forall₂ rowFrameOk rows (update_sheet_status bref new_status notes rows).2 := by
  induction rows with
  | nil => exact List.Forall₂.nil
  | cons row rest ih =>
    rw [update_sheet_status]
    by_cases hm : rowMatchesRef bref row = true
    · rw [if_pos hm]
      by_cases hu : rowStatusUpdatable row = true
      · rw [if_pos hu]
        refine List.Forall₂.cons ⟨Or.inr hu, fun hc => ?_⟩
          (forall2_of_refl _ (fun x => ⟨Or.inl rfl, fun _ => rfl⟩) rest)
        exfalso
        have hu' := hu
        simp [rowStatusUpdatable] at hu'
        simp [List.getD] at hc
        rw [hc] at hu'
        simp at hu'
      · rw [if_neg hu]
        exact List.Forall₂.cons ⟨Or.inl rfl, fun _ => rfl⟩ ih
    · rw [if_neg hm]
      exact List.Forall₂.cons ⟨Or.inl rfl, fun _ => rfl⟩ ih

theorem update_sheet_reschedule_frame (env : Env) (bref : Option String)
    (new_start new_end : Nat) (notes : String) (rows : List (List String)) :
    List.Forall₂ rowFrameOk rows
      (update_sheet_reschedule env bref new_start new_end notes rows).2 := by
  induction rows with
  | nil => exact List.Forall₂.nil
  | cons row rest ih =>
    rw [update_sheet_reschedule]
    by_cases hm : rowMatchesRef bref row = true
    · rw [if_pos hm]
      by_cases hu : rowStatusUpdatable row = true
      · rw [if_pos hu]
        refine List.Forall₂.cons ⟨Or.inr hu, fun hc => ?_⟩
          (forall2_of_refl _ (fun x => ⟨Or.inl rfl, fun _ => rfl⟩) rest)
        exfalso
        have hu' := hu
        simp [rowStatusUpdatable] at hu'
        simp [List.getD] at hc
        rw [hc] at hu'
        simp at hu'
      · rw [if_neg hu]
        exact List.Forall₂.cons ⟨Or.inl rfl, fun _ => rfl⟩
          (forall2_of_refl _ (fun x => ⟨Or.inl rfl, fun _ => rfl⟩) rest)
    · rw [if_neg hm]
      exact List.Forall₂.cons ⟨Or.inl rfl, fun _ => rfl⟩ ih

/-- C8: both ledger-locating operations walk the rows in place and mutate a
row only when its current status column holds `confirmed` or `rescheduled`;
in particular a row whose status is `cancelled` is returned unchanged, by
both `update_sheet_status` and `update_sheet_reschedule`. -/
theorem ledger_cancelled_rows_immutable (env : Env) (bref : Option String)
    (new_status notes resched_notes : String) (new_start new_end : Nat)
    (rows : List (List String)) :
    List.Forall₂ rowFrameOk rows (update_sheet_status bref new_status notes rows).2 ∧
    List.Forall₂ rowFrameOk rows
      (update_sheet_reschedule env bref new_start new_end resched_notes rows).2 :=
  ⟨update_sheet_status_frame bref new_status notes rows,
   update_sheet_reschedule_frame env bref new_start new_end resched_notes rows⟩

/-- Witness for C8 on a ledger whose matching row is already cancelled. -/
theorem ledger_cancelled_rows_immutable_witness :
    List.Forall₂ rowFrameOk [rowCancelled, rowA]
      (update_sheet_status (some "OLD-999") "cancelled" "again" [rowCancelled, rowA]).2 ∧
    List.Forall₂ rowFrameOk [rowCancelled, rowA]
      (update_sheet_reschedule envFree (some "OLD-999") w10 (w10 + usPerHalfHour) "n"
        [rowCancelled, rowA]).2 :=
  ledger_cancelled_rows_immutable envFree (some "OLD-999") "cancelled" "again" "n"
    w10 (w10 + usPerHalfHour) [rowCancelled, rowA]

/-! ### C4: two-phase reschedule (no mutation without the confirm flag) -/

theorem find_ok_parse_ok (env : Env) (text : String) (limit : Nat) (r : FindSlotsRes)
    (h : find_available_slots env text limit = .ok r) : ∃ a, env.parse text = .ok a := by
  rw [find_available_slots] at h
  cases hp : env.parse text with
  | error e => rw [hp] at h; simp at h
  | ok a => exact ⟨a, rfl⟩

/-- C4: a reschedule request without the confirm flag never mutates the
calendar or the ledger — whatever the finder answers — and merely proposes:
the exact slot when the preferred time is available, or the alternative
list when it is busy. -/
theorem reschedule_no_confirm_frame (env : Env) (st : PharmacyState) (req : RescheduleReq)
    (hc : req.confirm_reschedule = false) :
    (reschedule_booking env st req).1 = st ∧
    (∀ ev bref s rest,
      resolve_booking env st req.booking_ref req.name req.contact = some (ev, bref) →
      find_available_slots env req.new_preferred_datetime_text 3 =
        .ok { slots := s :: rest, reason := some "preferred_time_available" } →
      (reschedule_booking env st req).2 =
        .ok { success := true, booking_ref := bref,
              old_slot := some (env.speak ev.e_start ev.e_end), new_slot := some s,
              reason := some "preferred_time_available" }) ∧
    (∀ ev bref slots,
      resolve_booking env st req.booking_ref req.name req.contact = some (ev, bref) →
      find_available_slots env req.new_preferred_datetime_text 3 =
        .ok { slots := slots, reason := some "preferred_time_busy" } →
      (reschedule_booking env st req).2 =
        .ok { success := false, booking_ref := bref,
              old_slot := some (env.speak ev.e_start ev.e_end),
              available_slots := some slots, reason := some "preferred_time_busy" }) := by
  refine ⟨?_, ?_, ?_⟩
  · rw [reschedule_booking]
    split
    · rfl
    · split
      · rfl
      · split
        · rfl
        · split
          · split
            · rfl
            · simp [hc]
          · split
            · simp [hc]
            · rfl
  · intro ev bref s rest hres hfind
    obtain ⟨a, hp⟩ := find_ok_parse_ok env req.new_preferred_datetime_text 3 _ hfind
    rw [reschedule_booking, hres, hp, hfind]
    simp [hc]
  · intro ev bref slots hres hfind
    obtain ⟨a, hp⟩ := find_ok_parse_ok env req.new_preferred_datetime_text 3 _ hfind
    rw [reschedule_booking, hres, hp, hfind]
    simp [hc]

/-! Symbolic evaluation rules for `find_available_slots` (case split on what
the parser, the availability check and the scan answered). -/

theorem find_avail_of (env : Env) (text : String) (limit : Nat) (a : Nat)
    (hp : env.parse text = .ok a)
    (hav : is_slot_available env (round_to_next_half_hour a) = .ok true) :
    find_available_slots env text limit =
      .ok { slots := [mkSlot env (round_to_next_half_hour a)],
            reason := some "preferred_time_available" } := by
  rw [find_available_slots, hp]
  dsimp only
  rw [hav]

theorem find_busy_of (env : Env) (text : String) (limit : Nat) (a : Nat) (l : List Slot)
    (hp : env.parse text = .ok a)
    (hav : is_slot_available env (round_to_next_half_hour a) = .ok false)
    (htop : top_slots env a limit = .ok l) (hne : l.isEmpty = false) :
    find_available_slots env text limit =
      .ok { slots := l, reason := some "preferred_time_busy" } := by
  rw [find_available_slots, hp]
  dsimp only
  rw [hav]
  dsimp only
  rw [htop]
  dsimp only
  rw [hne]
  rfl

/-! Concrete evaluation of the scan under `envBusy10` (Wednesday 10:00 busy,
everything else free): the three alternatives after the preferred slot. -/

set_option maxHeartbeats 1000000 in
set_option maxRecDepth 10000 in
theorem scan_day_eval_busy :
    scan_day envBusy10 3 (dayFloor w10 + 18 * usPerHour) w10 [] =
      .ok (w10 + 4 * usPerHalfHour,
        [mkSlot envBusy10 (w10 + usPerHalfHour), mkSlot envBusy10 (w10 + 2 * usPerHalfHour),
         mkSlot envBusy10 (w10 + 3 * usPerHalfHour)]) := by
  simp [scan_day, is_slot_available, freebusy_range, is_business_hours, mkSlot, envBusy10,
    envFree, w10, d2, weekday, hourOf, minuteOf, dayFloor, usPerDay, usPerHour, usPerMin,
    usPerHalfHour]

set_option maxHeartbeats 1000000 in
set_option maxRecDepth 10000 in
theorem top_slots_go_eval_busy :
    top_slots_go envBusy10 3 w10 0 [] =
      .ok [mkSlot envBusy10 (w10 + usPerHalfHour), mkSlot envBusy10 (w10 + 2 * usPerHalfHour),
           mkSlot envBusy10 (w10 + 3 * usPerHalfHour)] := by
  rw [top_slots_go.eq_def]
  rw [dif_pos (by constructor <;> decide)]
  rw [scan_day_eval_busy]
  simp [top_slots_go, skip_weekend, weekday, dayFloor, mkSlot, envBusy10, envFree, w10, d2,
    usPerDay, usPerHour, usPerHalfHour]

theorem top_slots_eval_busy :
    top_slots envBusy10 w1005 3 =
      .ok [mkSlot envBusy10 (w10 + usPerHalfHour), mkSlot envBusy10 (w10 + 2 * usPerHalfHour),
           mkSlot envBusy10 (w10 + 3 * usPerHalfHour)] :=
  (rfl : top_slots envBusy10 w1005 3 = top_slots_go envBusy10 3 w10 0 []).trans
    top_slots_go_eval_busy

theorem find_eval_busy :
    find_available_slots envBusy10 "wednesday 10:05" 3 =
      .ok { slots := [mkSlot envBusy10 (w10 + usPerHalfHour),
                      mkSlot envBusy10 (w10 + 2 * usPerHalfHour),
                      mkSlot envBusy10 (w10 + 3 * usPerHalfHour)],
            reason := some "preferred_time_busy" } :=
  find_busy_of envBusy10 "wednesday 10:05" 3 w1005 _ rfl (by decide)
    top_slots_eval_busy rfl

/-- Witness for C4: rescheduling `ABC-123` under `envBusy10` without the
confirm flag keeps the state intact and returns the alternative list. -/
theorem reschedule_no_confirm_frame_witness :
    (reschedule_booking envBusy10 stA rreqNoConfirm).1 = stA ∧
    (reschedule_booking envBusy10 stA rreqNoConfirm).2 =
      .ok { success := false, booking_ref := some "ABC-123",
            old_slot := some (envBusy10.speak evA.e_start evA.e_end),
            available_slots := some [mkSlot envBusy10 (w10 + usPerHalfHour),
              mkSlot envBusy10 (w10 + 2 * usPerHalfHour),
              mkSlot envBusy10 (w10 + 3 * usPerHalfHour)],
            reason := some "preferred_time_busy" } :=
  ⟨(reschedule_no_confirm_frame envBusy10 stA rreqNoConfirm rfl).1,
   (reschedule_no_confirm_frame envBusy10 stA rreqNoConfirm rfl).2.2 evA (some "ABC-123")
     [mkSlot envBusy10 (w10 + usPerHalfHour), mkSlot envBusy10 (w10 + 2 * usPerHalfHour),
      mkSlot envBusy10 (w10 + 3 * usPerHalfHour)] rfl find_eval_busy⟩

/-! ### C7: local error recovery (amended) and the uncaught parse escape -/

/-- Counterexample to C7 as stated: a valid find-slots request whose
preferred text the parser rejects escapes `find_slots_endpoint` as an
exception instead of a structured failure response. -/
theorem find_slots_unparseable_escapes :
    find_slots_endpoint envNoParse (.ok fsreq) = .error "ParserError" := rfl

/-- C7 (amended): every error in the taxonomy is a structured
`success=false` response with `error`/`reason` fields and an unchanged
state — `validation_error` on create/reschedule/cancel (a malformed
find-slots payload instead gets the `bad_payload` sample result),
`slot_taken`, `booking_not_found` (reschedule and cancel),
`invalid_datetime`, `no_slots_available`, `update_failed` when the
calendar update raises during a confirmed reschedule commit (a successful
update proceeding exactly as `reschedule_commit`), and
`cancellation_failed` when the calendar delete raises; but an unparseable
preferred-time text on slot discovery escapes the handler as an exception
(on reschedule the same parse failure is caught as `invalid_datetime`). -/
theorem error_taxonomy_locally_recovered :
    (∀ (env : Env) (e : Err), find_slots_endpoint env (.error e) =
      .ok { slots := [mkSlot env (round_to_next_half_hour (env.now + 2 * usPerHour))],
            reason := some "bad_payload" }) ∧
    (∀ (env : Env) (st : PharmacyState) (e : Err),
      create_event_endpoint env st (.error e) =
        (st, .ok { success := false, error := some "validation_error", reason := some e })) ∧
    (∀ (env : Env) (st : PharmacyState) (e : Err),
      reschedule_booking_endpoint env st (.error e) =
        (st, .ok { success := false, error := some "validation_error", reason := some e })) ∧
    (∀ (env : Env) (st : PharmacyState) (e : Err),
      cancel_booking_endpoint env st (.error e) =
        (st, .ok { success := false, error := some "validation_error", reason := some e })) ∧
    (∀ (env : Env) (st : PharmacyState) (req : CreateEventReq),
      st.events.find? (fun e => e.bookingRef == some (create_ref env req)) = none →
      is_slot_available env req.slot.s_start = .ok false →
      create_event env st req =
        (st, .ok { success := false, error := some "slot_taken",
                   reason := some "slot_no_longer_available" })) ∧
    (∀ (env : Env) (st : PharmacyState) (req : RescheduleReq),
      resolve_booking env st req.booking_ref req.name req.contact = none →
      reschedule_booking env st req =
        (st, .ok { success := false, error := some "booking_not_found",
                   reason := some "No booking found with provided details" })) ∧
    (∀ (env : Env) (st : PharmacyState) (req : CancelReq),
      resolve_booking env st req.booking_ref req.name req.contact = none →
      cancel_booking env st req =
        (st, .ok { success := false, error := some "booking_not_found",
                   reason := some "No booking found with provided details" })) ∧
    (∀ (env : Env) (st : PharmacyState) (req : RescheduleReq) (ev : CalEvent)
       (bref : Option String) (e : Err),
      resolve_booking env st req.booking_ref req.name req.contact = some (ev, bref) →
      env.parse req.new_preferred_datetime_text = .error e →
      reschedule_booking env st req =
        (st, .ok { success := false, error := some "invalid_datetime",
                   reason := some "Could not parse new preferred datetime" })) ∧
    (∀ (env : Env) (st : PharmacyState) (req : RescheduleReq) (ev : CalEvent)
       (bref : Option String),
      resolve_booking env st req.booking_ref req.name req.contact = some (ev, bref) →
      find_available_slots env req.new_preferred_datetime_text 3 =
        .ok { slots := [], reason := some "no_slots_available" } →
      reschedule_booking env st req =
        (st, .ok { success := false, error := some "no_slots_available",
                   reason := some "No available slots found for the requested time period" })) ∧
    (∀ (env : Env) (st : PharmacyState) (req : RescheduleReq) (ev : CalEvent)
       (bref : Option String) (old : String) (s : Slot) (e : Err),
      env.updateEv ev.id (reschedule_event_body ev s req.notes) = .error e →
      reschedule_commit_attempt env st req ev bref old s =
        (st, .ok { success := false, error := some "update_failed",
                   reason := some ("Failed to update booking: " ++ e) })) ∧
    (∀ (env : Env) (st : PharmacyState) (req : RescheduleReq) (ev : CalEvent)
       (bref : Option String) (old : String) (s : Slot),
      env.updateEv ev.id (reschedule_event_body ev s req.notes) = .ok () →
      reschedule_commit_attempt env st req ev bref old s =
        reschedule_commit env st req ev bref old s) ∧
    (∀ (env : Env) (st : PharmacyState) (req : CancelReq) (ev : CalEvent)
       (bref : Option String) (e : Err),
      resolve_booking env st req.booking_ref req.name req.contact = some (ev, bref) →
      env.deleteEv ev.id = .error e →
      cancel_booking env st req =
        (st, .ok { success := false, error := some "cancellation_failed",
                   reason := some ("Failed to cancel booking: " ++ e) })) ∧
    (∀ (env : Env) (req : FindSlotsReq) (e : Err),
      env.parse req.preferred_datetime_text = .error e →
      find_slots_endpoint env (.ok req) = .error e) := by
  refine ⟨fun env e => rfl, fun env st e => rfl, fun env st e => rfl, fun env st e => rfl,
    ?_, ?_, ?_, ?_, ?_, ?_, ?_, ?_, ?_⟩
  · intro env st req h1 h2
    have h1' : st.events.find? (fun e => e.bookingRef ==
        some (booking_ref_key env req.patient.name req.patient.contact
          req.slot.s_start req.appointment_type)) = none := h1
    simp [create_event, h1', h2]
  · intro env st req hres
    rw [reschedule_booking, hres]
  · intro env st req hres
    rw [cancel_booking, hres]
  · intro env st req ev bref e hres hp
    rw [reschedule_booking, hres, hp]
  · intro env st req ev bref hres hfind
    obtain ⟨a, hp⟩ := find_ok_parse_ok env req.new_preferred_datetime_text 3 _ hfind
    rw [reschedule_booking, hres, hp, hfind]
    simp
  · intro env st req ev bref old s e hupd
    rw [reschedule_commit_attempt, hupd]
  · intro env st req ev bref old s hupd
    rw [reschedule_commit_attempt, hupd]
  · intro env st req ev bref e hres hdel
    simp [cancel_booking, hres, hdel]
  · intro env req e hp
    rw [find_slots_endpoint, find_available_slots, hp]

/-- Witness for C7's amended theorem: a rejected create payload, a
booking-not-found reschedule on an empty calendar, a failing calendar
update and a failing calendar delete under `envWriteErr`, and the escaping
parse error, all at concrete inputs. -/
theorem error_taxonomy_locally_recovered_witness :
    create_event_endpoint envFree { events := [], ledger := [] } (.error "missing slot") =
      ({ events := [], ledger := [] },
       .ok { success := false, error := some "validation_error",
             reason := some "missing slot" }) ∧
    reschedule_booking envFree { events := [], ledger := [] } rreqMissing =
      ({ events := [], ledger := [] },
       .ok { success := false, error := some "booking_not_found",
             reason := some "No booking found with provided details" }) ∧
    reschedule_commit_attempt envWriteErr stA rreqConfirm evA (some "ABC-123") "old"
        (mkSlot envFree w10) =
      (stA, .ok { success := false, error := some "update_failed",
                  reason := some ("Failed to update booking: " ++ "calendar_write_failed") }) ∧
    cancel_booking envWriteErr stA cancreq =
      (stA, .ok { success := false, error := some "cancellation_failed",
                  reason := some ("Failed to cancel booking: " ++ "calendar_write_failed") }) ∧
    find_slots_endpoint envNoParse (.ok fsreq) = .error "ParserError" :=
  ⟨error_taxonomy_locally_recovered.2.1 envFree { events := [], ledger := [] } "missing slot",
   error_taxonomy_locally_recovered.2.2.2.2.2.1 envFree { events := [], ledger := [] }
     rreqMissing rfl,
   error_taxonomy_locally_recovered.2.2.2.2.2.2.2.2.2.1 envWriteErr stA rreqConfirm evA
     (some "ABC-123") "old" (mkSlot envFree w10) "calendar_write_failed" rfl,
   error_taxonomy_locally_recovered.2.2.2.2.2.2.2.2.2.2.2.1 envWriteErr stA cancreq evA
     (some "ABC-123") "calendar_write_failed" rfl rfl,
   error_taxonomy_locally_recovered.2.2.2.2.2.2.2.2.2.2.2.2 envNoParse fsreq "ParserError" rfl⟩

/-! ### C5: the slot-finder scan — arithmetic groundwork -/

theorem dayFloor_le (t : Nat) : dayFloor t ≤ t := by
  unfold dayFloor usPerDay
  omega

theorem dayFloor_mod (t : Nat) : dayFloor t % usPerDay = 0 := by
  unfold dayFloor usPerDay
  omega

theorem dayFloor_add_day (t : Nat) : dayFloor (t + usPerDay) = dayFloor t + usPerDay := by
  unfold dayFloor usPerDay
  omega

theorem lt_dayFloor_add (t : Nat) : t < dayFloor t + usPerDay := by
  unfold dayFloor usPerDay
  omega

theorem dayFloor_eq_of (d t : Nat) (hd : d % usPerDay = 0) (h1 : d ≤ t)
    (h2 : t < d + usPerDay) : dayFloor t = d := by
  unfold dayFloor usPerDay at *
  omega

theorem mod_half_of_mod_day (t : Nat) (h : t % usPerDay = 0) : t % usPerHalfHour = 0 := by
  unfold usPerDay usPerHalfHour at *
  omega

theorem skip_weekend_ge (t : Nat) : t ≤ skip_weekend t := by
  induction t using skip_weekend.induct with
  | case1 t h ih =>
    rw [skip_weekend, if_pos h]
    omega
  | case2 t h => rw [skip_weekend, if_neg h]

theorem skip_weekend_mod_day (t : Nat) : skip_weekend t % usPerDay = t % usPerDay := by
  induction t using skip_weekend.induct with
  | case1 t h ih =>
    rw [skip_weekend, if_pos h, ih]
    unfold usPerDay
    omega
  | case2 t h => rw [skip_weekend, if_neg h]

theorem skip_weekend_offset (t r : Nat) (hr : r < usPerDay) :
    t % usPerDay = 0 → skip_weekend (t + r) = skip_weekend t + r := by
  induction t using skip_weekend.induct with
  | case1 t h ih =>
    intro ht
    have hw : weekday (t + r) = weekday t := by
      unfold weekday usPerDay at *
      omega
    rw [skip_weekend, if_pos (by rw [hw]; exact h)]
    have e1 : t + r + usPerDay = t + usPerDay + r := by omega
    rw [e1, ih (by unfold usPerDay at *; omega)]
    conv_rhs => rw [skip_weekend, if_pos h]
  | case2 t h =>
    intro ht
    have hw : weekday (t + r) = weekday t := by
      unfold weekday usPerDay at *
      omega
    rw [skip_weekend, if_neg (by rw [hw]; exact h), skip_weekend, if_neg h]

/-- What one day's inner scan guarantees: it extends `out` by slots taken
from `[probe, day_end]` on `probe`'s 30-minute grid, each available at scan
time, in strictly increasing order, never exceeding `limit`, with the final
probe just past the day window. -/
theorem scan_day_spec (env : Env) (limit day_end : Nat) :
    ∀ (probe : Nat) (out : List Slot), ∀ (probe1 : Nat) (out1 : List Slot),
      scan_day env limit day_end probe out = .ok (probe1, out1) →
      ∃ tail,
        out1 = out ++ tail ∧
        probe ≤ probe1 ∧
        ((probe ≤ day_end → probe1 ≤ day_end + usPerHalfHour) ∧
         (day_end < probe → probe1 = probe)) ∧
        probe1 % usPerHalfHour = probe % usPerHalfHour ∧
        ((out.length < limit → out1.length ≤ limit) ∧
         (limit ≤ out.length → out1 = out)) ∧
        (∀ s ∈ tail,
          probe ≤ s.s_start ∧ s.s_start ≤ day_end ∧ s.s_start < probe1 ∧
          s.s_start % usPerHalfHour = probe % usPerHalfHour ∧
          is_slot_available env s.s_start = .ok true ∧
          s.s_end = s.s_start + usPerHalfHour) ∧
        List.Pairwise (fun x y => x.s_start < y.s_start) tail := by
  have hH : 0 < usPerHalfHour := by unfold usPerHalfHour; omega
  intro probe out
  induction probe, out using scan_day.induct env limit day_end with
  | case1 probe out hguard e herr =>
    intro probe1 out1 hok
    rw [scan_day, dif_pos hguard, herr] at hok
    simp at hok
  | case2 probe out hguard avail havail ih =>
    intro probe1 out1 hok
    rw [scan_day, dif_pos hguard, havail] at hok
    dsimp only at hok
    cases avail with
    | true =>
      rw [if_pos rfl] at hok
      have ih' := ih probe1 out1
      rw [dif_pos rfl] at ih'
      obtain ⟨tail', h1, h2, h3, h4, h5, h6, h7⟩ := ih' hok
      rw [Nat.add_mod_right] at h4
      refine ⟨mkSlot env probe :: tail', by simp [h1], by omega, ⟨?_, ?_⟩, h4,
        ⟨?_, ?_⟩, ?_, ?_⟩
      · intro hpd
        by_cases hc : probe + usPerHalfHour ≤ day_end
        · exact h3.1 hc
        · have := h3.2 (by omega)
          omega
      · intro hlt
        exact absurd hguard.1 (by omega)
      · intro _
        by_cases hc : (out ++ [mkSlot env probe]).length < limit
        · exact h5.1 hc
        · have h8 := h5.2 (by omega)
          have h9 : (out ++ [mkSlot env probe]).length = out.length + 1 := by simp
          rw [h8, h9]
          omega
      · intro hle
        exact absurd hguard.2 (by omega)
      · intro s hs
        rcases List.mem_cons.mp hs with rfl | hs'
        · simp only [mkSlot]
          exact ⟨Nat.le_refl _, hguard.1, by omega, trivial, havail, trivial⟩
        · obtain ⟨g1, g2, g3, g4, g5, g6⟩ := h6 s hs'
          rw [Nat.add_mod_right] at g4
          exact ⟨by omega, g2, g3, g4, g5, g6⟩
      · refine List.Pairwise.cons ?_ h7
        intro y hy
        have := (h6 y hy).1
        show probe < y.s_start
        omega
    | false =>
      rw [if_neg (by simp)] at hok
      have ih' := ih probe1 out1
      rw [dif_neg (by simp)] at ih'
      obtain ⟨tail', h1, h2, h3, h4, h5, h6, h7⟩ := ih' hok
      rw [Nat.add_mod_right] at h4
      refine ⟨tail', h1, by omega, ⟨?_, ?_⟩, h4, ⟨h5.1, ?_⟩, ?_, h7⟩
      · intro hpd
        by_cases hc : probe + usPerHalfHour ≤ day_end
        · exact h3.1 hc
        · have := h3.2 (by omega)
          omega
      · intro hlt
        exact absurd hguard.1 (by omega)
      · intro hle
        exact absurd hguard.2 (by omega)
      · intro s hs
        obtain ⟨g1, g2, g3, g4, g5, g6⟩ := h6 s hs
        rw [Nat.add_mod_right] at g4
        exact ⟨by omega, g2, g3, g4, g5, g6⟩
  | case3 probe out hguard =>
    intro probe1 out1 hok
    rw [scan_day, dif_neg hguard] at hok
    simp at hok
    obtain ⟨rfl, rfl⟩ := hok
    refine ⟨[], by simp, Nat.le_refl _, ⟨fun h => by omega, fun _ => rfl⟩, rfl,
      ⟨fun h => by omega, fun _ => rfl⟩,
      fun s hs => absurd hs (List.not_mem_nil s), List.Pairwise.nil⟩

theorem candidate_days_succ (d k : Nat) :
    candidate_days d (k + 1) = d :: candidate_days (next_business_day d) k := rfl

/-- What the day-by-day scan guarantees from a grid-aligned probe: every
slot it adds is at or after the probe, grid-aligned, available, 30 minutes
long, and lies on one of the at most `8 - days_checked` candidate days
(consecutive days with weekends skipped) starting at the probe's day; the
output is strictly chronological and capped by `limit`. -/
theorem top_slots_go_spec (env : Env) (limit : Nat) :
    ∀ (probe days_checked : Nat) (out : List Slot),
      probe % usPerHalfHour = 0 →
      ∀ res, top_slots_go env limit probe days_checked out = .ok res →
      ∃ tail,
        res = out ++ tail ∧
        ((out.length < limit → res.length ≤ limit) ∧ (limit ≤ out.length → res = out)) ∧
        (∀ s ∈ tail,
          probe ≤ s.s_start ∧
          s.s_start % usPerHalfHour = 0 ∧
          is_slot_available env s.s_start = .ok true ∧
          s.s_end = s.s_start + usPerHalfHour ∧
          dayFloor s.s_start ∈ candidate_days (dayFloor probe) (8 - days_checked)) ∧
        List.Pairwise (fun x y => x.s_start < y.s_start) tail := by
  intro probe days_checked out
  induction probe, days_checked, out using top_slots_go.induct env limit with
  | case1 probe days_checked out hguard e herr =>
    intro hgrid res hok
    rw [top_slots_go, dif_pos hguard, herr] at hok
    simp at hok
  | case2 probe days_checked out hguard probe1 out1 hscan ih =>
    intro hgrid res hok
    rw [top_slots_go, dif_pos hguard, hscan] at hok
    dsimp only at hok
    obtain ⟨tail1, s1, s2, s3, s4, s5, s6, s7⟩ :=
      scan_day_spec env limit (dayFloor probe + 18 * usPerHour) probe out probe1 out1 hscan
    have hfloor_le : dayFloor probe ≤ probe := dayFloor_le probe
    have hp1lt : probe1 < dayFloor probe + usPerDay := by
      by_cases hc : probe ≤ dayFloor probe + 18 * usPerHour
      · have := s3.1 hc
        have := lt_dayFloor_add probe
        unfold usPerDay usPerHour usPerHalfHour at *
        omega
      · have := s3.2 (by omega)
        have := lt_dayFloor_add probe
        omega
    have hdf1 : dayFloor probe1 = dayFloor probe :=
      dayFloor_eq_of _ _ (dayFloor_mod probe) (Nat.le_trans hfloor_le s2) hp1lt
    have hDmod : (dayFloor probe1 + usPerDay) % usPerDay = 0 := by
      have := dayFloor_mod probe1
      unfold usPerDay at *
      omega
    have hprobe2eq : skip_weekend (dayFloor (probe1 + usPerDay) + 9 * usPerHour) =
        next_business_day (dayFloor probe) + 9 * usPerHour := by
      rw [dayFloor_add_day]
      rw [skip_weekend_offset (dayFloor probe1 + usPerDay) (9 * usPerHour)
        (by unfold usPerDay usPerHour; omega) hDmod]
      rw [hdf1, next_business_day]
    have hNBDmod : next_business_day (dayFloor probe) % usPerDay = 0 := by
      rw [next_business_day, skip_weekend_mod_day]
      have := dayFloor_mod probe
      unfold usPerDay at *
      omega
    have hgrid2 : (next_business_day (dayFloor probe) + 9 * usPerHour) % usPerHalfHour = 0 := by
      have h1 := mod_half_of_mod_day _ hNBDmod
      unfold usPerHour usPerHalfHour at *
      omega
    have hdfP2 : dayFloor (next_business_day (dayFloor probe) + 9 * usPerHour) =
        next_business_day (dayFloor probe) :=
      dayFloor_eq_of _ _ hNBDmod (Nat.le_add_right _ _) (by unfold usPerDay usPerHour; omega)
    have hp2gt : probe1 < next_business_day (dayFloor probe) + 9 * usPerHour := by
      have hge : dayFloor probe1 + usPerDay ≤ next_business_day (dayFloor probe1) :=
        skip_weekend_ge _
      have hlt1 : probe1 < dayFloor probe1 + usPerDay := lt_dayFloor_add probe1
      rw [hdf1] at hge
      omega
    rw [hprobe2eq] at hok ih
    obtain ⟨tail2, t1, tlen, tmem, tpair⟩ := ih hgrid2 res hok
    have hk8 : 8 - days_checked = (8 - (days_checked + 1)) + 1 := by omega
    refine ⟨tail1 ++ tail2, ?_, ⟨?_, ?_⟩, ?_, ?_⟩
    · rw [t1, s1, List.append_assoc]
    · intro h
      by_cases hc : out1.length < limit
      · exact tlen.1 hc
      · have he := tlen.2 (by omega)
        have hl := s5.1 h
        rw [he]
        omega
    · intro h
      have h1 := s5.2 h
      have h2 := tlen.2 (by rw [h1]; omega)
      rw [h2, h1]
    · intro s hs
      rcases List.mem_append.mp hs with hs1 | hs2
      · obtain ⟨g1, g2, g3, g4, g5, g6⟩ := s6 s hs1
        have hdfs : dayFloor s.s_start = dayFloor probe := by
          refine dayFloor_eq_of _ _ (dayFloor_mod probe) (Nat.le_trans hfloor_le g1) ?_
          unfold usPerDay usPerHour at *
          omega
        refine ⟨g1, by omega, g5, g6, ?_⟩
        rw [hk8, candidate_days_succ, hdfs]
        exact List.mem_cons_self _ _
      · obtain ⟨g1, g2, g3, g4, g5⟩ := tmem s hs2
        refine ⟨by omega, g2, g3, g4, ?_⟩
        rw [hk8, candidate_days_succ]
        refine List.mem_cons_of_mem _ ?_
        rw [hdfP2] at g5
        exact g5
    · rw [List.pairwise_append]
      refine ⟨s7, tpair, ?_⟩
      intro x hx y hy
      have hx1 := (s6 x hx).2.2.1
      have hy1 := (tmem y hy).1
      omega
  | case3 probe days_checked out hguard =>
    intro hgrid res hok
    rw [top_slots_go, dif_neg hguard] at hok
    simp at hok
    subst hok
    exact ⟨[], by simp, ⟨fun h => by omega, fun _ => rfl⟩,
      fun s hs => absurd hs (List.not_mem_nil s), List.Pairwise.nil⟩

theorem available_imp_business (env : Env) (p : Nat)
    (h : is_slot_available env p = .ok true) : is_business_hours p = true := by
  by_cases hb : is_business_hours p = true
  · exact hb
  · simp only [Bool.not_eq_true] at hb
    simp [is_slot_available, hb] at h

/-- C5: for every parseable preferred text, the finder rounds the parsed
instant to the half-hour grid and, if that exact slot is available, answers
exactly that one slot with `preferred_time_available`; otherwise it answers
up to `limit` alternatives with `preferred_time_busy` (`no_slots_available`
when none), where every returned slot is an available business slot of 30
minutes on the grid, at or after the anchor clamped to `now + 60min` and
rounded, lying on one of the first 8 candidate days (skipping weekends),
and the list is strictly chronological (hence no slot repeated). -/
theorem find_available_slots_spec (env : Env) (text : String) (limit : Nat) (anchor : Nat)
    (hp : env.parse text = .ok anchor) :
    (is_slot_available env (round_to_next_half_hour anchor) = .ok true →
      find_available_slots env text limit =
        .ok { slots := [mkSlot env (round_to_next_half_hour anchor)],
              reason := some "preferred_time_available" }) ∧
    (∀ res, is_slot_available env (round_to_next_half_hour anchor) = .ok false →
      find_available_slots env text limit = .ok res →
      res.reason = some (if res.slots = [] then "no_slots_available"
                         else "preferred_time_busy") ∧
      res.slots.length ≤ limit ∧
      (∀ s ∈ res.slots,
        is_business_hours s.s_start = true ∧
        is_slot_available env s.s_start = .ok true ∧
        s.s_end = s.s_start + usPerHalfHour ∧
        s.s_start % usPerHalfHour = 0 ∧
        round_to_next_half_hour (max anchor (env.now + 60 * usPerMin)) ≤ s.s_start ∧
        dayFloor s.s_start ∈
          candidate_days
            (dayFloor (round_to_next_half_hour (max anchor (env.now + 60 * usPerMin)))) 8) ∧
      List.Pairwise (fun x y => x.s_start < y.s_start) res.slots) := by
  constructor
  · exact find_avail_of env text limit anchor hp
  · intro res hav hres
    rw [find_available_slots, hp] at hres
    dsimp only at hres
    rw [hav] at hres
    dsimp only at hres
    cases htop : top_slots env anchor limit with
    | error e =>
      rw [htop] at hres
      simp at hres
    | ok l =>
      rw [htop] at hres
      simp at hres
      subst hres
      rw [top_slots] at htop
      obtain ⟨tail, h1, hlen, hmem, hpair⟩ :=
        top_slots_go_spec env limit (round_to_next_half_hour (max anchor (env.now + 60 * usPerMin)))
          0 [] (round_mod_half _) l htop
      simp only [List.nil_append] at h1
      subst h1
      refine ⟨?_, ?_, ?_, hpair⟩
      · rfl
      · by_cases h0 : 0 < limit
        · exact hlen.1 (by simpa using h0)
        · have := hlen.2 (by simp; omega)
          rw [this]
          simp
      · intro s hs
        obtain ⟨g1, g2, g3, g4, g5⟩ := hmem s hs
        exact ⟨available_imp_business env s.s_start g3, g3, g4, g2, g1, by simpa using g5⟩

/-- Witness for C5: under `envBusy10` (preferred Wednesday 10:00 busy) the
finder answers the three following half hours, chronologically, each an
available business slot on a candidate day after the clamped anchor. -/
theorem find_available_slots_spec_witness :
    find_available_slots envBusy10 "wednesday 10:05" 3 = .ok resBusyW ∧
    resBusyW.reason = some (if resBusyW.slots = [] then "no_slots_available"
                            else "preferred_time_busy") ∧
    resBusyW.slots.length ≤ 3 ∧
    is_business_hours (mkSlot envBusy10 (w10 + usPerHalfHour)).s_start = true ∧
    is_slot_available envBusy10 (mkSlot envBusy10 (w10 + usPerHalfHour)).s_start = .ok true ∧
    round_to_next_half_hour (max w1005 (envBusy10.now + 60 * usPerMin)) ≤
      (mkSlot envBusy10 (w10 + usPerHalfHour)).s_start ∧
    dayFloor (mkSlot envBusy10 (w10 + usPerHalfHour)).s_start ∈
      candidate_days
        (dayFloor (round_to_next_half_hour (max w1005 (envBusy10.now + 60 * usPerMin)))) 8 ∧
    List.Pairwise (fun x y => x.s_start < y.s_start) resBusyW.slots :=
  have h := (find_available_slots_spec envBusy10 "wednesday 10:05" 3 w1005 rfl).2 resBusyW
    (by decide) find_eval_busy
  have hm := h.2.2.1 (mkSlot envBusy10 (w10 + usPerHalfHour)) (List.mem_cons_self _ _)
  ⟨find_eval_busy, h.1, h.2.1, hm.1, hm.2.1, hm.2.2.2.2.1, hm.2.2.2.2.2, h.2.2.2⟩

/-! ### C10: confirmed reschedule commits the scan's first alternative -/

/-- C10: when the confirm flag is set and the preferred time is busy but
alternatives exist, the handler commits the booking to the FIRST
alternative of the scan (`slots[0]`) — moving the calendar event to that
slot and rewriting the ledger row to it — without the caller ever having
selected it. -/
theorem reschedule_confirm_commits_first_alternative
    (env : Env) (st : PharmacyState) (req : RescheduleReq) (ev : CalEvent)
    (bref : Option String) (s : Slot) (rest : List Slot)
    (hc : req.confirm_reschedule = true)
    (hres : resolve_booking env st req.booking_ref req.name req.contact = some (ev, bref))
    (hfind : find_available_slots env req.new_preferred_datetime_text 3 =
      .ok { slots := s :: rest, reason := some "preferred_time_busy" }) :
    reschedule_booking env st req =
      reschedule_commit env st req ev bref (env.speak ev.e_start ev.e_end) s ∧
    (reschedule_booking env st req).1.events =
      st.events.map (fun e => if e.id == ev.id then reschedule_event_body ev s req.notes else e) ∧
    (reschedule_booking env st req).1.ledger =
      (update_sheet_reschedule env bref s.s_start s.s_end
        (if pystr req.notes ≠ "" then pystr req.notes
         else "Rescheduled from " ++ env.speak ev.e_start ev.e_end ++ " to " ++ s.speakable)
        st.ledger).2 ∧
    (∃ r, (reschedule_booking env st req).2 = .ok r ∧ r.success = true ∧
      r.new_slot = some s ∧ r.confirm_speakable = some s.speakable) := by
  obtain ⟨a, hp⟩ := find_ok_parse_ok env req.new_preferred_datetime_text 3 _ hfind
  have hmain : reschedule_booking env st req =
      reschedule_commit env st req ev bref (env.speak ev.e_start ev.e_end) s := by
    rw [reschedule_booking, hres, hp, hfind]
    simp [hc]
  refine ⟨hmain, ?_, ?_, ?_⟩
  · rw [hmain]
    rfl
  · rw [hmain]
    rfl
  · exact ⟨_, by rw [hmain]; rfl, rfl, rfl, rfl⟩

/-- Witness for C10: confirming the reschedule of `ABC-123` under
`envBusy10` moves the booking to the first alternative (Wednesday 10:30),
with the event and ledger row rewritten to it. -/
theorem reschedule_confirm_commits_first_alternative_witness :
    reschedule_booking envBusy10 stA rreqConfirm =
      reschedule_commit envBusy10 stA rreqConfirm evA (some "ABC-123")
        (envBusy10.speak evA.e_start evA.e_end) (mkSlot envBusy10 (w10 + usPerHalfHour)) ∧
    (reschedule_booking envBusy10 stA rreqConfirm).1.events =
      stA.events.map (fun e => if e.id == evA.id then
        reschedule_event_body evA (mkSlot envBusy10 (w10 + usPerHalfHour)) rreqConfirm.notes
        else e) ∧
    (reschedule_booking envBusy10 stA rreqConfirm).1.ledger =
      (update_sheet_reschedule envBusy10 (some "ABC-123")
        (mkSlot envBusy10 (w10 + usPerHalfHour)).s_start
        (mkSlot envBusy10 (w10 + usPerHalfHour)).s_end
        (if pystr rreqConfirm.notes ≠ "" then pystr rreqConfirm.notes
         else "Rescheduled from " ++ envBusy10.speak evA.e_start evA.e_end ++ " to " ++
           (mkSlot envBusy10 (w10 + usPerHalfHour)).speakable)
        stA.ledger).2 ∧
    (∃ r, (reschedule_booking envBusy10 stA rreqConfirm).2 = .ok r ∧ r.success = true ∧
      r.new_slot = some (mkSlot envBusy10 (w10 + usPerHalfHour)) ∧
      r.confirm_speakable = some (mkSlot envBusy10 (w10 + usPerHalfHour)).speakable) :=
  reschedule_confirm_commits_first_alternative envBusy10 stA rreqConfirm evA
    (some "ABC-123") (mkSlot envBusy10 (w10 + usPerHalfHour))
    [mkSlot envBusy10 (w10 + 2 * usPerHalfHour), mkSlot envBusy10 (w10 + 3 * usPerHalfHour)]
    rfl rfl find_eval_busy

end Pharmacy
